import Mathlib

/-!
Verification of the retry/failover JSON-RPC dispatch logic of
`steembase/http_client.py` (class `HttpClient`), via a shallow embedding.

The embedding models:
* `json_rpc_body` — the request-envelope builder (`HttpClient.json_rpc_body`);
* `next_node` / `url` — the cyclic node rotation (`HttpClient.next_node`,
  `HttpClient.set_node`, with `self.nodes = cycle(nodes)`);
* `exec` — the per-call dispatch state machine (`HttpClient.exec`), with its
  bounded retry/failover recursion made explicit;
* `exec_multi_with_futures` — the batch layer, with the thread pool abstracted
  to a per-item independent `exec` (each item has its own retry counter).

The transport (`urllib3` pool manager) and the JSON decoder are external
collaborators; they are modelled as an oracle `Transport` mapping an attempt
index, the current node url and the request body, to an outcome, and by
carrying the already-decoded body (`Option JValue`) on the response.
-/

namespace SteemHttp

/-- Decoded JSON values, as produced by `json.loads`.  Objects are association
lists with (as produced by the decoder) unique keys. -/
inductive JValue where
  | null : JValue
  | bool (b : Bool) : JValue
  | num (n : Int) : JValue
  | str (s : String) : JValue
  | arr (xs : List JValue) : JValue
  | obj (kvs : List (String × JValue)) : JValue

/-- Python exceptions that dict/attribute operations inside `exec` can raise
(uncaught there): `KeyError`, `TypeError`, `AttributeError`. -/
inductive PyExn where
  | keyError (k : String) : PyExn
  | typeError : PyExn
  | attributeError : PyExn
deriving DecidableEq

/-- `pat in s` for Python strings: substring test (the empty pattern is
contained in every string). -/
def strContains (s pat : String) : Bool :=
  pat == "" || (s.splitOn pat).length > 1

/-- Python membership `key in v` as used on the decoded body
(`'error' in response_json`, `'result' not in response_json`): key lookup on a
dict, element membership on a list, substring on a string, `TypeError`
otherwise. -/
def pyIn (key : String) : JValue → Except PyExn Bool
  | .obj kvs => .ok (kvs.any (fun kv => kv.1 == key))
  | .arr xs => .ok (xs.any (fun x => match x with | .str s => s == key | _ => false))
  | .str s => .ok (strContains s key)
  | _ => .error .typeError

/-- Python subscript `v[key]` with a string key: lookup on a dict
(`KeyError` when absent), `TypeError` on any other value. -/
def pySubscript (v : JValue) (key : String) : Except PyExn JValue :=
  match v with
  | .obj kvs =>
      match kvs.find? (fun kv => kv.1 == key) with
      | some kv => .ok kv.2
      | none => .error (.keyError key)
  | _ => .error .typeError

/-- The JSON-RPC request envelope built by `HttpClient.json_rpc_body`
(the dict form; serialization to bytes is external). -/
structure RpcBody where
  jsonrpc : String
  id : Int
  method : String
  params : JValue

/-- Python truthiness of the optional `api` argument: `if api:` is false for
`None` and for the empty string. -/
def apiTruthy : Option String → Bool
  | none => false
  | some s => s != ""

/-- `HttpClient.json_rpc_body(name, *args, api=api, _id=rid)` (dict form):
`{"jsonrpc": "2.0", "id": rid, "method": "call", "params": [api, name, args]}`
when `api` is truthy, else
`{"jsonrpc": "2.0", "id": rid, "method": name, "params": args}`. -/
def json_rpc_body (name : String) (args : List JValue) (api : Option String)
    (rid : Int) : RpcBody :=
  if apiTruthy api then
    ⟨"2.0", rid, "call", .arr [.str (api.getD ""), .str name, .arr args]⟩
  else
    ⟨"2.0", rid, name, .arr args⟩

/-- The rotation state: the configured node list (`cycle(nodes)` repeats it)
and the index of the currently active node.  After `__init__`'s initial
`next_node()` the active node is `nodes[0]`, i.e. `idx = 0`. -/
structure ClientState where
  nodes : List String
  idx : Nat

/-- The active node url (`self.url`), as set by `set_node`. -/
def url (st : ClientState) : String :=
  st.nodes.getD (st.idx % st.nodes.length) ""

/-- `HttpClient.next_node` / `set_node`: advance the `cycle(nodes)` iterator
and make the yielded node active. -/
def next_node (st : ClientState) : ClientState :=
  ⟨st.nodes, (st.idx + 1) % st.nodes.length⟩

/-- One HTTP response, with `status` the integer status code and `dataJson`
the result of `json.loads(response.data.decode('utf-8'))` — `none` when that
decode raises. -/
structure HttpResponse where
  status : Int
  dataJson : Option JValue

/-- The outcome of one transport send (`self.request(body=body)`): either an
exception raised below the HTTP layer (identified by a string payload) or a
returned response. -/
inductive HttpOutcome where
  | exn (e : String) : HttpOutcome
  | resp (r : HttpResponse) : HttpOutcome

/-- The external transport as an oracle: attempt index (= the retry counter of
the attempt), the active node url, and the request body determine the
outcome. -/
abbrev Transport := Nat → String → RpcBody → HttpOutcome

/-- The errors a single `exec` call can raise. -/
inductive ExecError where
  /-- `raise e`: the transport exception re-raised in its original form. -/
  | transportExn (e : String) : ExecError
  /-- `raise SteemdBadResponse(response)`: carries the raw response. -/
  | badResponse (r : HttpResponse) : ExecError
  /-- `raise SteemdBadResponse('The response is missing a "result".')`. -/
  | missingResult : ExecError
  /-- `raise RPCError(error_message)`. -/
  | rpcError (msg : JValue) : ExecError
  /-- An uncaught `KeyError` / `TypeError` / `AttributeError` escaping `exec`. -/
  | pyExn (e : PyExn) : ExecError

/-- A successful `exec` return value: the result alone, or paired with the
original argument sequence when `return_with_args` is truthy. -/
inductive ExecValue where
  | plain (v : JValue) : ExecValue
  | withArgs (v : JValue) (args : List JValue) : ExecValue

/-- The observable outcome of one logical `exec` call: the returned value or
raised error, the rotation state afterwards, the number of transport sends
performed, the number of `next_node` rotations performed, and the request
bodies sent, in order. -/
structure ExecResult where
  out : Except ExecError ExecValue
  state : ClientState
  attempts : Nat
  rotations : Nat
  bodies : List RpcBody

/-- `error.get('detail', response_json['error']['message'])`: Python first
evaluates the bound method `error.get` (an `AttributeError` when `error` is
not a dict), then the default argument `response_json['error']['message']`
(a `KeyError` when `'message'` is absent), and only then performs the
`'detail'` lookup with that default. -/
def extractErrorMessage (rj err : JValue) : Except PyExn JValue :=
  match err with
  | .obj kvs =>
      match pySubscript rj "error" with
      | .error ex => .error ex
      | .ok e2 =>
          match pySubscript e2 "message" with
          | .error ex => .error ex
          | .ok msg =>
              match kvs.find? (fun kv => kv.1 == "detail") with
              | some kv => .ok kv.2
              | none => .ok msg
  | _ => .error .attributeError

/-- `HttpClient.exec(name, *args, api=api, return_with_args=rwa, _ret_cnt=retCnt)`.

Faithful points of the translation:
* the envelope is rebuilt on every attempt;
* the inner `failover()` closure calls
  `self.exec(name, *args, return_with_args=return_with_args, _ret_cnt=_ret_cnt+1)`
  — it forwards `return_with_args` and the incremented counter but **not**
  `api`, so every retry attempt runs with `api = None`;
* each retryable failure site checks `_ret_cnt >= self.max_failovers` before
  rotating; `response.status is not 200` is CPython identity comparison
  against the interned literal `200`, which for the integer statuses produced
  by the transport coincides with value inequality and is modelled as such;
* the missing-`"result"` raise and the uncaught dict/attribute exceptions
  happen with no budget check and no rotation;
* `if return_with_args:` sees the per-call argument only (default `None`,
  falsy); the instance attribute `self.return_with_args` is not consulted. -/
def exec (maxFailovers : Nat) (tr : Transport) (name : String) (args : List JValue)
    (api : Option String) (rwa : Option Bool) (retCnt : Nat) (st : ClientState) :
    ExecResult :=
  let body := json_rpc_body name args api 0
  match tr retCnt (url st) body with
  | .exn e =>
      if _h : retCnt ≥ maxFailovers then
        ⟨.error (.transportExn e), st, 1, 0, [body]⟩
      else
        let r := exec maxFailovers tr name args none rwa (retCnt + 1) (next_node st)
        ⟨r.out, r.state, r.attempts + 1, r.rotations + 1, body :: r.bodies⟩
  | .resp resp =>
      if resp.status ≠ 200 then
        if _h : retCnt ≥ maxFailovers then
          ⟨.error (.badResponse resp), st, 1, 0, [body]⟩
        else
          let r := exec maxFailovers tr name args none rwa (retCnt + 1) (next_node st)
          ⟨r.out, r.state, r.attempts + 1, r.rotations + 1, body :: r.bodies⟩
      else
        match resp.dataJson with
        | none =>
            if _h : retCnt ≥ maxFailovers then
              ⟨.error (.badResponse resp), st, 1, 0, [body]⟩
            else
              let r := exec maxFailovers tr name args none rwa (retCnt + 1) (next_node st)
              ⟨r.out, r.state, r.attempts + 1, r.rotations + 1, body :: r.bodies⟩
        | some rj =>
            match pyIn "error" rj with
            | .error ex => ⟨.error (.pyExn ex), st, 1, 0, [body]⟩
            | .ok true =>
                match pySubscript rj "error" with
                | .error ex => ⟨.error (.pyExn ex), st, 1, 0, [body]⟩
                | .ok err =>
                    match extractErrorMessage rj err with
                    | .error ex => ⟨.error (.pyExn ex), st, 1, 0, [body]⟩
                    | .ok msg =>
                        if _h : retCnt ≥ maxFailovers then
                          ⟨.error (.rpcError msg), st, 1, 0, [body]⟩
                        else
                          let r := exec maxFailovers tr name args none rwa
                              (retCnt + 1) (next_node st)
                          ⟨r.out, r.state, r.attempts + 1, r.rotations + 1,
                            body :: r.bodies⟩
            | .ok false =>
                match pyIn "result" rj with
                | .error ex => ⟨.error (.pyExn ex), st, 1, 0, [body]⟩
                | .ok false => ⟨.error .missingResult, st, 1, 0, [body]⟩
                | .ok true =>
                    match pySubscript rj "result" with
                    | .error ex => ⟨.error (.pyExn ex), st, 1, 0, [body]⟩
                    | .ok res =>
                        if rwa.getD false then
                          ⟨.ok (.withArgs res args), st, 1, 0, [body]⟩
                        else
                          ⟨.ok (.plain res), st, 1, 0, [body]⟩
termination_by maxFailovers - retCnt
decreasing_by all_goals omega

/-- The client configuration fields `__init__` stores that matter to dispatch:
`self.return_with_args` (stored, never consulted by `exec`) and
`self.max_failovers`. -/
structure HttpClientCfg where
  return_with_args : Bool
  max_failovers : Nat

/-- A logical call on a constructed client: `exec` reads `self.max_failovers`;
its `return_with_args` parameter is whatever the caller passed (default
`None`), independent of the stored `self.return_with_args`. -/
def client_exec (cfg : HttpClientCfg) (tr : Transport) (name : String)
    (args : List JValue) (api : Option String) (rwa : Option Bool)
    (st : ClientState) : ExecResult :=
  exec cfg.max_failovers tr name args api rwa 0 st

/-- A batch parameter, as classified by `ensure_list`'s
`type(parameter) in (list, tuple, set)` test. -/
inductive PyParam where
  | scalar (v : JValue) : PyParam
  | listLike (xs : List JValue) : PyParam

/-- `ensure_list`: wrap a scalar in a one-element list, pass a
list/tuple/set through. -/
def ensure_list : PyParam → List JValue
  | .scalar v => [v]
  | .listLike xs => xs

/-- `HttpClient.exec_multi_with_futures(name, params, api=api)`: each
parameter set is submitted as `self.exec(name, *ensure_list(param), api=api)`
— with no `return_with_args` argument, so each item runs with the default
`None`.  The thread pool and completion order are abstracted: the model
returns the per-item results in submission order, each item an independent
`exec` from the given state with its own retry counter. -/
def exec_multi_with_futures (cfg : HttpClientCfg) (tr : Transport) (name : String)
    (params : List PyParam) (api : Option String) (st : ClientState) :
    List ExecResult :=
  params.map (fun p => exec cfg.max_failovers tr name (ensure_list p) api none 0 st)

/-! ## Helper lemmas on rotation and the retry recursion -/

theorem next_node_iterate_nodes (st : ClientState) (k : Nat) :
    (next_node^[k] st).nodes = st.nodes := by
  induction k generalizing st with
  | zero => rfl
  | succ k ih =>
      rw [Function.iterate_succ_apply]
      exact ih (next_node st)

theorem next_node_iterate_idx (st : ClientState) (k : Nat) (hk : 1 ≤ k) :
    (next_node^[k] st).idx = (st.idx + k) % st.nodes.length := by
  induction k generalizing st with
  | zero => omega
  | succ k ih =>
      rcases Nat.eq_zero_or_pos k with hk0 | hk1
      · subst hk0
        simp [next_node]
      · rw [Function.iterate_succ_apply, ih (next_node st) hk1]
        simp [next_node, Nat.mod_add_mod]
        ring_nf

/-- For a transport raising on every attempt, `exec` starting at retry count
`n ≤ K` performs `K - n + 1` sends and `K - n` rotations, rebuilds the retry
envelopes without the namespace, and re-raises the transport exception of the
final attempt. -/
theorem exec_allExn_aux (K : Nat) (tr : Transport) (name : String) (args : List JValue)
    (rwa : Option Bool) (hall : ∀ k u b, ∃ e, tr k u b = HttpOutcome.exn e) :
    ∀ d n st api, n ≤ K → K - n = d →
      ∃ e, tr K (url (next_node^[d] st))
            (json_rpc_body name args (if n = K then api else none) 0) = HttpOutcome.exn e ∧
        exec K tr name args api rwa n st =
          ⟨.error (.transportExn e), next_node^[d] st, d + 1, d,
            json_rpc_body name args api 0 ::
              List.replicate d (json_rpc_body name args none 0)⟩ := by
  intro d
  induction d with
  | zero =>
      intro n st api hn hd
      have hnK : n = K := by omega
      subst hnK
      obtain ⟨e, he⟩ := hall n (url st) (json_rpc_body name args api 0)
      refine ⟨e, by simpa using he, ?_⟩
      rw [exec]
      simp [he]
  | succ d ih =>
      intro n st api hn hd
      have hnK : n < K := by omega
      obtain ⟨e0, he0⟩ := hall n (url st) (json_rpc_body name args api 0)
      obtain ⟨e, he, hr⟩ := ih (n + 1) (next_node st) none (by omega) (by omega)
      refine ⟨e, ?_, ?_⟩
      · rw [Function.iterate_succ_apply]
        simpa [if_neg (by omega : ¬ n = K)] using he
      · rw [exec]
        simp only [he0]
        rw [dif_neg (by omega : ¬ n ≥ K)]
        rw [hr]
        simp [Function.iterate_succ_apply, List.replicate_succ]

/-- For a transport returning the same non-200 response on every attempt,
`exec` starting at retry count `n ≤ K` performs `K - n + 1` sends and `K - n`
rotations and raises `SteemdBadResponse` carrying that raw response. -/
theorem exec_allBadStatus_aux (K : Nat) (tr : Transport) (name : String)
    (args : List JValue) (rwa : Option Bool) (resp : HttpResponse)
    (hst : resp.status ≠ 200) (hall : ∀ k u b, tr k u b = HttpOutcome.resp resp) :
    ∀ d n st api, n ≤ K → K - n = d →
      exec K tr name args api rwa n st =
        ⟨.error (.badResponse resp), next_node^[d] st, d + 1, d,
          json_rpc_body name args api 0 ::
            List.replicate d (json_rpc_body name args none 0)⟩ := by
  intro d
  induction d with
  | zero =>
      intro n st api hn hd
      have hnK : n = K := by omega
      subst hnK
      rw [exec]
      simp [hall, hst]
  | succ d ih =>
      intro n st api hn hd
      have hnK : n < K := by omega
      rw [exec]
      simp only [hall]
      rw [if_pos hst, dif_neg (by omega : ¬ n ≥ K)]
      rw [ih (n + 1) (next_node st) none (by omega) (by omega)]
      simp [Function.iterate_succ_apply, List.replicate_succ]

/-- For every transport, `exec` performs at most `K - n + 1` sends: the retry
counter strictly increases and is checked against the budget before every
retry. -/
theorem exec_attempts_le_aux (K : Nat) (tr : Transport) (name : String)
    (args : List JValue) :
    ∀ d n st api rwa, K - n ≤ d →
      (exec K tr name args api rwa n st).attempts ≤ K - n + 1 := by
  intro d
  induction d with
  | zero =>
      intro n st api rwa hd
      rw [exec]
      repeat' split
      all_goals simp_all
      all_goals omega
  | succ d ih =>
      intro n st api rwa hd
      rw [exec]
      repeat' split
      all_goals simp_all
      all_goals (have h9 := ih (n + 1) (next_node st) none rwa (by omega); omega)

/-! ## Claim theorems -/

/-- C1: The claim says every retry re-attempts the request with the same
namespace and that the envelope of every retry attempt is identical to the
first attempt's envelope.  The code's `failover()` calls `self.exec` without
forwarding `api`, so a namespaced call that fails once is retried with an
un-namespaced envelope: on the concrete run below the first envelope has
method `"call"` (namespaced) while the retry envelope has method
`"get_followers"`, and the two envelopes differ. -/
theorem exec_retry_drops_namespace :
    (exec 10
        (fun k _ _ => if k = 0 then HttpOutcome.exn "ConnectionResetError"
          else HttpOutcome.resp ⟨200, some (.obj [("result", .num 7)])⟩)
        "get_followers" [.str "furion"] (some "follow_api") none 0
        ⟨["n1", "n2"], 0⟩).bodies
      = [json_rpc_body "get_followers" [.str "furion"] (some "follow_api") 0,
         json_rpc_body "get_followers" [.str "furion"] none 0] ∧
    (json_rpc_body "get_followers" [.str "furion"] (some "follow_api") 0).method
      = "call" ∧
    (json_rpc_body "get_followers" [.str "furion"] none 0).method
      = "get_followers" ∧
    json_rpc_body "get_followers" [.str "furion"] (some "follow_api") 0 ≠
      json_rpc_body "get_followers" [.str "furion"] none 0 := by
  refine ⟨?_, rfl, rfl, ?_⟩
  · simp [exec, json_rpc_body, apiTruthy, pyIn, pySubscript, url]
  · simp [json_rpc_body, apiTruthy]

/-- C2: The claim says `return_with_args=True` at construction makes pairing
the default for all calls.  The code stores `self.return_with_args` but `exec`
never consults it (its per-call parameter defaults to `None`, falsy), and
`exec_multi_with_futures` submits items without any `return_with_args` at all:
on a client constructed with `return_with_args = true`, a call without the
per-call flag returns the bare result, not the `(result, args)` pair, and so
does every batch item. -/
theorem client_return_with_args_ignored :
    (client_exec ⟨true, 10⟩
        (fun _ _ _ => HttpOutcome.resp ⟨200, some (.obj [("result", .num 42)])⟩)
        "m" [.str "a"] none none ⟨["n1"], 0⟩).out
      = Except.ok (ExecValue.plain (.num 42)) ∧
    (client_exec ⟨true, 10⟩
        (fun _ _ _ => HttpOutcome.resp ⟨200, some (.obj [("result", .num 42)])⟩)
        "m" [.str "a"] none none ⟨["n1"], 0⟩).out
      ≠ Except.ok (ExecValue.withArgs (.num 42) [.str "a"]) ∧
    (exec_multi_with_futures ⟨true, 10⟩
        (fun _ _ _ => HttpOutcome.resp ⟨200, some (.obj [("result", .num 42)])⟩)
        "m" [.scalar (.str "a"), .scalar (.str "b"), .scalar (.str "c")] none
        ⟨["n1"], 0⟩).map (fun r => r.out)
      = [Except.ok (ExecValue.plain (.num 42)), Except.ok (ExecValue.plain (.num 42)),
         Except.ok (ExecValue.plain (.num 42))] := by
  refine ⟨?_, ?_, ?_⟩ <;>
    simp [client_exec, exec_multi_with_futures, ensure_list, exec, json_rpc_body,
      apiTruthy, pyIn, pySubscript, url]

/-- C3: With `max_failovers = K` and a transport raising on every attempt, a
logical call performs exactly `K + 1` sends (initial plus `K` retries), makes
exactly `K` rotations, ends with a raised transport error, and leaves the
active endpoint at the `(K + 1)`-th in rotation order counted from the
endpoint active at the start (i.e. the result of `K` rotations). -/
theorem exec_exhausts_budget_attempts_and_endpoint (K : Nat) (tr : Transport)
    (name : String) (args : List JValue) (api : Option String) (rwa : Option Bool)
    (st : ClientState) (hall : ∀ k u b, ∃ e, tr k u b = HttpOutcome.exn e) :
    (exec K tr name args api rwa 0 st).attempts = K + 1 ∧
    (exec K tr name args api rwa 0 st).rotations = K ∧
    (exec K tr name args api rwa 0 st).state = next_node^[K] st ∧
    ∃ e, (exec K tr name args api rwa 0 st).out
      = Except.error (ExecError.transportExn e) := by
  obtain ⟨e, _he, hr⟩ :=
    exec_allExn_aux K tr name args rwa hall K 0 st api (Nat.zero_le K) (by omega)
  rw [hr]
  exact ⟨rfl, rfl, rfl, e, rfl⟩

/-- Witness for C3 at `K = 2`, three endpoints, a transport raising `"boom"`
on every attempt. -/
theorem exec_exhausts_budget_attempts_and_endpoint_witness :
    (exec 2 (fun _ _ _ => HttpOutcome.exn "boom") "get_block" [] none none 0
        ⟨["a", "b", "c"], 0⟩).attempts = 2 + 1 ∧
    (exec 2 (fun _ _ _ => HttpOutcome.exn "boom") "get_block" [] none none 0
        ⟨["a", "b", "c"], 0⟩).rotations = 2 ∧
    (exec 2 (fun _ _ _ => HttpOutcome.exn "boom") "get_block" [] none none 0
        ⟨["a", "b", "c"], 0⟩).state = next_node^[2] ⟨["a", "b", "c"], 0⟩ ∧
    ∃ e, (exec 2 (fun _ _ _ => HttpOutcome.exn "boom") "get_block" [] none none 0
        ⟨["a", "b", "c"], 0⟩).out = Except.error (ExecError.transportExn e) :=
  exec_exhausts_budget_attempts_and_endpoint 2 _ "get_block" [] none none
    ⟨["a", "b", "c"], 0⟩ (fun _ _ _ => ⟨"boom", rfl⟩)

/-- C4: Classification of a returned response is by the value of the status
code (the source's `status is not 200` coincides, for CPython's interned
integer statuses, with value inequality): status exactly 200 proceeds to
decoding and succeeds on a well-formed body, while any other status value is
a bad-status error — retried on every attempt while budget remains and then
raised as `SteemdBadResponse` carrying the raw response. -/
theorem exec_status_code_classification (K : Nat) (name : String)
    (args : List JValue) (st : ClientState) (good bad : HttpResponse) (v : JValue)
    (hgood : good.status = 200)
    (hbody : good.dataJson = some (.obj [("result", v)]))
    (hbad : bad.status ≠ 200) :
    ((exec K (fun _ _ _ => HttpOutcome.resp good) name args none none 0 st).out
        = Except.ok (ExecValue.plain v) ∧
     (exec K (fun _ _ _ => HttpOutcome.resp good) name args none none 0 st).attempts
        = 1) ∧
    exec K (fun _ _ _ => HttpOutcome.resp bad) name args none none 0 st =
      ⟨.error (.badResponse bad), next_node^[K] st, K + 1, K,
        json_rpc_body name args none 0 ::
          List.replicate K (json_rpc_body name args none 0)⟩ := by
  refine ⟨?_, ?_⟩
  · constructor <;>
      · rw [exec]
        simp [hgood, hbody, pyIn, pySubscript]
  · exact exec_allBadStatus_aux K _ name args none bad hbad (fun _ _ _ => rfl) K 0 st
      none (Nat.zero_le K) (by omega)

/-- Witness for C4: a 200 response with body `{"result": 5}` succeeds in one
attempt; a 500 response is retried and finally raised with the raw response,
at `K = 1` over two endpoints. -/
theorem exec_status_code_classification_witness :
    ((exec 1 (fun _ _ _ => HttpOutcome.resp ⟨200, some (.obj [("result", .num 5)])⟩)
        "m" [] none none 0 ⟨["a", "b"], 0⟩).out
        = Except.ok (ExecValue.plain (.num 5)) ∧
     (exec 1 (fun _ _ _ => HttpOutcome.resp ⟨200, some (.obj [("result", .num 5)])⟩)
        "m" [] none none 0 ⟨["a", "b"], 0⟩).attempts = 1) ∧
    exec 1 (fun _ _ _ => HttpOutcome.resp ⟨500, none⟩) "m" [] none none 0
        ⟨["a", "b"], 0⟩ =
      ⟨.error (.badResponse ⟨500, none⟩), next_node^[1] ⟨["a", "b"], 0⟩, 1 + 1, 1,
        json_rpc_body "m" [] none 0 ::
          List.replicate 1 (json_rpc_body "m" [] none 0)⟩ :=
  exec_status_code_classification 1 "m" [] ⟨["a", "b"], 0⟩
    ⟨200, some (.obj [("result", .num 5)])⟩ ⟨500, none⟩ (.num 5) rfl rfl (by simp)

/-- C5: A decoded body that is a JSON object containing neither a `"result"`
entry nor an `"error"` entry makes the call fail immediately with
`SteemdBadResponse('The response is missing a "result".')`: one send, zero
rotations, state unchanged, for every remaining retry budget `K`. -/
theorem exec_missing_result_immediate (K : Nat) (tr : Transport) (name : String)
    (args : List JValue) (api : Option String) (rwa : Option Bool)
    (st : ClientState) (kvs : List (String × JValue))
    (htr : tr 0 (url st) (json_rpc_body name args api 0)
      = HttpOutcome.resp ⟨200, some (.obj kvs)⟩)
    (hne : kvs.any (fun kv => kv.1 == "error") = false)
    (hnr : kvs.any (fun kv => kv.1 == "result") = false) :
    exec K tr name args api rwa 0 st =
      ⟨.error .missingResult, st, 1, 0, [json_rpc_body name args api 0]⟩ := by
  rw [exec]
  simp [htr, pyIn, hne, hnr]

/-- Witness for C5 at budget `K = 10` and body `{"foo": null}`. -/
theorem exec_missing_result_immediate_witness :
    exec 10 (fun _ _ _ => HttpOutcome.resp ⟨200, some (.obj [("foo", .null)])⟩)
        "m" [] none none 0 ⟨["n1", "n2"], 0⟩ =
      ⟨.error .missingResult, ⟨["n1", "n2"], 0⟩, 1, 0, [json_rpc_body "m" [] none 0]⟩ :=
  exec_missing_result_immediate 10 _ "m" [] none none ⟨["n1", "n2"], 0⟩
    [("foo", .null)] rfl rfl rfl

/-- C6 counterexample: the claim quantifies over every namespace string, but a
present-and-empty namespace (`api = some ""`) is falsy in `if api:`, so the
envelope uses the plain method name, not the literal `"call"`. -/
theorem json_rpc_body_empty_namespace_counterexample :
    (json_rpc_body "get_block" [JValue.num 1] (some "") 0).method = "get_block" ∧
    (json_rpc_body "get_block" [JValue.num 1] (some "") 0).method ≠ "call" := by
  constructor
  · rfl
  · simp [json_rpc_body, apiTruthy]

/-- C6 (amended): for a present and *non-empty* namespace string the envelope
has method `"call"` and params `[namespace, name, args]`; with the namespace
absent — or present but empty, which Python truthiness treats as absent — the
envelope has the given method name and the argument sequence verbatim. -/
theorem json_rpc_body_namespace_spec (name : String) (args : List JValue)
    (a : String) (rid : Int) (ha : a ≠ "") :
    (json_rpc_body name args (some a) rid).method = "call" ∧
    (json_rpc_body name args (some a) rid).params
      = JValue.arr [.str a, .str name, .arr args] ∧
    (json_rpc_body name args none rid).method = name ∧
    (json_rpc_body name args none rid).params = JValue.arr args ∧
    (json_rpc_body name args (some "") rid).method = name ∧
    (json_rpc_body name args (some "") rid).params = JValue.arr args := by
  simp [json_rpc_body, apiTruthy, ha]

/-- Witness for C6 (amended) at namespace `"follow_api"`. -/
theorem json_rpc_body_namespace_spec_witness :
    (json_rpc_body "get_followers" [JValue.str "furion"] (some "follow_api") 0).method
      = "call" ∧
    (json_rpc_body "get_followers" [JValue.str "furion"] (some "follow_api") 0).params
      = JValue.arr [.str "follow_api", .str "get_followers",
          .arr [JValue.str "furion"]] ∧
    (json_rpc_body "get_followers" [JValue.str "furion"] none 0).method
      = "get_followers" ∧
    (json_rpc_body "get_followers" [JValue.str "furion"] none 0).params
      = JValue.arr [JValue.str "furion"] ∧
    (json_rpc_body "get_followers" [JValue.str "furion"] (some "") 0).method
      = "get_followers" ∧
    (json_rpc_body "get_followers" [JValue.str "furion"] (some "") 0).params
      = JValue.arr [JValue.str "furion"] :=
  json_rpc_body_namespace_spec "get_followers" [JValue.str "furion"] "follow_api" 0
    (by simp)

/-- C7: When the transport raises on every attempt, the error surfaced after
the budget is exhausted is the transport exception of the final attempt,
re-raised in its original form (the `transportExn` marker, not reclassified
into `SteemdBadResponse`, `RPCError` or any other client-defined error). -/
theorem exec_reraises_original_transport_exn (K : Nat) (tr : Transport)
    (name : String) (args : List JValue) (api : Option String) (rwa : Option Bool)
    (st : ClientState) (hall : ∀ k u b, ∃ e, tr k u b = HttpOutcome.exn e) :
    ∃ e, tr K (url (next_node^[K] st))
        (json_rpc_body name args (if 0 = K then api else none) 0)
        = HttpOutcome.exn e ∧
      (exec K tr name args api rwa 0 st).out
        = Except.error (ExecError.transportExn e) := by
  obtain ⟨e, he, hr⟩ :=
    exec_allExn_aux K tr name args rwa hall K 0 st api (Nat.zero_le K) (by omega)
  exact ⟨e, he, by rw [hr]⟩

/-- Witness for C7 at `K = 1`, two endpoints, a transport raising
`"ReadTimeoutError"` on every attempt. -/
theorem exec_reraises_original_transport_exn_witness :
    ∃ e, (fun (_ : Nat) (_ : String) (_ : RpcBody) => HttpOutcome.exn "ReadTimeoutError") 1
        (url (next_node^[1] (⟨["x", "y"], 0⟩ : ClientState)))
        (json_rpc_body "broadcast_transaction" [] (if 0 = 1 then some "network_broadcast_api" else none) 0)
        = HttpOutcome.exn e ∧
      (exec 1 (fun _ _ _ => HttpOutcome.exn "ReadTimeoutError")
          "broadcast_transaction" [] (some "network_broadcast_api") none 0
          ⟨["x", "y"], 0⟩).out
        = Except.error (ExecError.transportExn e) :=
  exec_reraises_original_transport_exn 1 _ "broadcast_transaction" []
    (some "network_broadcast_api") none ⟨["x", "y"], 0⟩
    (fun _ _ _ => ⟨"ReadTimeoutError", rfl⟩)

/-- C8: For every non-empty endpoint list, performing `length` consecutive
rotations from any state returns the active endpoint to the endpoint active
before the rotations. -/
theorem rotation_full_cycle_returns (st : ClientState) (hne : st.nodes ≠ []) :
    url (next_node^[st.nodes.length] st) = url st := by
  have hlen : 1 ≤ st.nodes.length := List.length_pos.mpr hne
  unfold url
  rw [next_node_iterate_nodes, next_node_iterate_idx st _ hlen,
    Nat.mod_mod_of_dvd _ (dvd_refl _), Nat.add_mod_right]

/-- Witness for C8 on the three-endpoint list, starting at the second. -/
theorem rotation_full_cycle_returns_witness :
    url (next_node^[(⟨["a", "b", "c"], 1⟩ : ClientState).nodes.length]
        ⟨["a", "b", "c"], 1⟩) = url ⟨["a", "b", "c"], 1⟩ :=
  rotation_full_cycle_returns ⟨["a", "b", "c"], 1⟩ (by simp)

/-- C9: Every logical call terminates with a defined outcome: for every
transport (every sequence of attempt outcomes) the call performs at most
`K + 1` sends — the retry counter strictly increases and is checked against
the budget before every retry — and its outcome is either a raised error or a
returned result. -/
theorem exec_terminates_bounded (K : Nat) (tr : Transport) (name : String)
    (args : List JValue) (api : Option String) (rwa : Option Bool)
    (st : ClientState) :
    (exec K tr name args api rwa 0 st).attempts ≤ K + 1 ∧
    ((∃ e, (exec K tr name args api rwa 0 st).out = Except.error e) ∨
     (∃ v, (exec K tr name args api rwa 0 st).out = Except.ok v)) := by
  constructor
  · have := exec_attempts_le_aux K tr name args K 0 st api rwa (by omega)
    omega
  · cases h : (exec K tr name args api rwa 0 st).out with
    | error e => exact Or.inl ⟨e, rfl⟩
    | ok v => exact Or.inr ⟨v, rfl⟩

/-- C10: A decoded body whose `"error"` entry is a dict lacking both
`"detail"` and `"message"` makes `exec` raise an uncaught `KeyError`
(evaluation of the eager default `response_json['error']['message']`), and a
body whose `"error"` value is not a dict makes it raise an uncaught
`AttributeError` (no `.get` on the value) — in both cases immediately: one
send, zero rotations, state unchanged, for every remaining budget `K`, and
the raised error is the `pyExn` kind, none of the five documented ones. -/
theorem exec_malformed_error_entry_uncaught (K : Nat) (name : String)
    (args : List JValue) (st : ClientState) (ekvs : List (String × JValue))
    (nonMap : JValue)
    (_hd : ekvs.find? (fun kv => kv.1 == "detail") = none)
    (hm : ekvs.find? (fun kv => kv.1 == "message") = none)
    (hnm : ∀ kvs2, nonMap ≠ JValue.obj kvs2) :
    exec K (fun _ _ _ => HttpOutcome.resp ⟨200, some (.obj [("error", .obj ekvs)])⟩)
        name args none none 0 st =
      ⟨.error (.pyExn (.keyError "message")), st, 1, 0,
        [json_rpc_body name args none 0]⟩ ∧
    exec K (fun _ _ _ => HttpOutcome.resp ⟨200, some (.obj [("error", nonMap)])⟩)
        name args none none 0 st =
      ⟨.error (.pyExn .attributeError), st, 1, 0,
        [json_rpc_body name args none 0]⟩ := by
  constructor
  · rw [exec]
    simp [pyIn, pySubscript, extractErrorMessage, hm]
  · rw [exec]
    cases nonMap
    case obj kvs2 => exact absurd rfl (hnm kvs2)
    all_goals simp [pyIn, pySubscript, extractErrorMessage]

/-- Witness for C10 at budget `K = 10`, error entry `{"code": 1}` (no
`"detail"`, no `"message"`) and non-dict error value `"oops"`. -/
theorem exec_malformed_error_entry_uncaught_witness :
    exec 10 (fun _ _ _ =>
        HttpOutcome.resp ⟨200, some (.obj [("error", .obj [("code", .num 1)])])⟩)
        "m" [] none none 0 ⟨["n1"], 0⟩ =
      ⟨.error (.pyExn (.keyError "message")), ⟨["n1"], 0⟩, 1, 0,
        [json_rpc_body "m" [] none 0]⟩ ∧
    exec 10 (fun _ _ _ =>
        HttpOutcome.resp ⟨200, some (.obj [("error", .str "oops")])⟩)
        "m" [] none none 0 ⟨["n1"], 0⟩ =
      ⟨.error (.pyExn .attributeError), ⟨["n1"], 0⟩, 1, 0,
        [json_rpc_body "m" [] none 0]⟩ :=
  exec_malformed_error_entry_uncaught 10 "m" [] ⟨["n1"], 0⟩ [("code", .num 1)]
    (.str "oops") rfl rfl (fun _ h => JValue.noConfusion h)

end SteemHttp
